import Mathlib

/-
Verification of the moleculer-tcp connection gateway.

The development shallowly embeds the connection registry and its action
handlers from src/index.js: the gateway state is the `connections` table
(a JavaScript object, modelled as an association list with unique keys in
insertion order), metadata stores are the per-record objects, and each
Moleculer action handler becomes a Lean function returning either the
updated state together with the list of events emitted on the broker, or
the MoleculerError the handler throws.
-/

set_option autoImplicit false

namespace MoleculerTcp

/-- A JavaScript value as it occurs in metadata stores and event payloads. -/
inductive JVal where
  | str (s : String)
  | num (n : Int)
  | boolean (b : Bool)
  deriving Repr, DecidableEq

/-- Lookup in a JavaScript object, first (and with unique keys, only) match. -/
def alGet {α : Type} : List (String × α) → String → Option α
  | [], _ => none
  | (k0, v0) :: rest, k => if k0 = k then some v0 else alGet rest k

/-- Property assignment on a JavaScript object: update the existing key in
place, or append the new key at the end. -/
def alSet {α : Type} : List (String × α) → String → α → List (String × α)
  | [], k, v => [(k, v)]
  | (k0, v0) :: rest, k, v =>
    if k0 = k then (k, v) :: rest else (k0, v0) :: alSet rest k v

/-- The JavaScript delete operator: remove the key from the object. -/
def alDel {α : Type} : List (String × α) → String → List (String × α)
  | [], _ => []
  | (k0, v0) :: rest, k =>
    if k0 = k then alDel rest k else (k0, v0) :: alDel rest k

/-- The keys of an object in property order. -/
def alKeys {α : Type} (m : List (String × α)) : List String :=
  m.map Prod.fst

/-- The observable state of a net.Socket handle as the handlers drive it:
`ended` records that socket.end() was called, `destroyed` that
socket.destroy() was called, `written` the data passed to socket.write. -/
structure Sock where
  remoteAddress : String
  ended : Bool
  destroyed : Bool
  written : List String
  deriving Repr, DecidableEq

/-- A connection record as built by onServerConnection: the id, the socket
handle and the metadata object. -/
structure Conn where
  id : String
  sock : Sock
  metadata : List (String × JVal)
  deriving Repr, DecidableEq

/-- The gateway state: the `connections` table created in `created()`. -/
structure Gateway where
  connections : List (String × Conn)
  deriving Repr, DecidableEq

/-- An event emitted on the broker: topic name and payload object. -/
structure Emit where
  event : String
  payload : List (String × JVal)
  deriving Repr, DecidableEq

/-- A MoleculerError as thrown by the handlers: message, code, type, and
the error class used (MoleculerError or MoleculerClientError). -/
structure Err where
  message : String
  code : Nat
  type : String
  cls : String
  deriving Repr, DecidableEq

/-- The event topic emitted when a socket closes. -/
def TCP_SOCKET_CLOSE_EVENT : String := "tcp.socket.close"

/-- The object-literal key under which the registry-cleanup event handler of
the TypeScript variant is registered. The source writes the identifier as a
plain object key rather than a computed key, so the subscription is to the
literal name, not to the value of the constant. -/
def cleanupSubscriptionKey : String := "TCP_SOCKET_CLOSE_EVENT"

/-- The `deleteMetadata` action handler from src/index.js. -/
def deleteMetadata (g : Gateway) (id key : String) :
    Except Err (Gateway × List Emit) :=
  match alGet g.connections id with
  | some c =>
    .ok ({ connections :=
             alSet g.connections id { c with metadata := alDel c.metadata key } },
         [{ event := "tcp.socket.metadata.delete",
            payload := [("id", .str id), ("key", .str key)] }])
  | none =>
    .error { message := "connection not found", code := 404,
             type := "CONNECTION_NOT_FOUND", cls := "MoleculerError" }

/-- The `getMetadata` action handler from src/index.js: returns the value
under the key, `none` standing for JavaScript undefined. -/
def getMetadata (g : Gateway) (id key : String) : Except Err (Option JVal) :=
  match alGet g.connections id with
  | some c => .ok (alGet c.metadata key)
  | none =>
    .error { message := "connection not found", code := 404,
             type := "CONNECTION_NOT_FOUND", cls := "MoleculerClientError" }

/-- The `setMetadata` action handler from src/index.js. -/
def setMetadata (g : Gateway) (id key : String) (value : JVal) :
    Except Err (Gateway × List Emit) :=
  match alGet g.connections id with
  | some c =>
    .ok ({ connections :=
             alSet g.connections id { c with metadata := alSet c.metadata key value } },
         [{ event := "tcp.socket.metadata.set",
            payload := [("id", .str id), ("key", .str key)] }])
  | none =>
    .error { message := "connection not found", code := 404,
             type := "CONNECTION_NOT_FOUND", cls := "MoleculerError" }

/-- The public `socketClose` action handler from src/index.js: destroys the
socket of the record; the record itself is not touched. -/
def socketClose (g : Gateway) (id : String) :
    Except Err (Gateway × List Emit) :=
  match alGet g.connections id with
  | some c =>
    .ok ({ connections :=
             alSet g.connections id { c with sock := { c.sock with destroyed := true } } },
         [])
  | none =>
    .error { message := "connection not found", code := 404,
             type := "CONNECTION_NOT_FOUND", cls := "MoleculerError" }

/-- The `socketWrite` action handler from src/index.js. -/
def socketWrite (g : Gateway) (id data : String) :
    Except Err (Gateway × List Emit) :=
  match alGet g.connections id with
  | some c =>
    .ok ({ connections :=
             alSet g.connections id
               { c with sock := { c.sock with written := c.sock.written ++ [data] } } },
         [])
  | none =>
    .error { message := "connection not found", code := 404,
             type := "CONNECTION_NOT_FOUND", cls := "MoleculerError" }

/-- The private `onSocketClose` action handler from src/index.js: ends the
socket and emits the socket close event; the record stays in the table. -/
def onSocketClose (g : Gateway) (id : String) :
    Except Err (Gateway × List Emit) :=
  match alGet g.connections id with
  | some c =>
    .ok ({ connections :=
             alSet g.connections id { c with sock := { c.sock with ended := true } } },
         [{ event := TCP_SOCKET_CLOSE_EVENT, payload := [("id", .str id)] }])
  | none =>
    .error { message := "connection not found: " ++ id, code := 404,
             type := "CONNECTION_NOT_FOUND", cls := "MoleculerClientError" }

/-- The private `onSocketError` action handler from src/index.js. -/
def onSocketError (g : Gateway) (id errMsg : String) :
    Except Err (Gateway × List Emit) :=
  match alGet g.connections id with
  | some c =>
    .ok ({ connections :=
             alSet g.connections id { c with sock := { c.sock with ended := true } } },
         [{ event := "tcp.socket.error",
            payload := [("id", .str id), ("error", .str errMsg)] }])
  | none =>
    .error { message := "connection not found: " ++ id, code := 404,
             type := "CONNECTION_NOT_FOUND", cls := "MoleculerClientError" }

/-- The private `onSocketTimeout` action handler from src/index.js: the
payload carries only the id. -/
def onSocketTimeout (g : Gateway) (id : String) :
    Except Err (Gateway × List Emit) :=
  match alGet g.connections id with
  | some c =>
    .ok ({ connections :=
             alSet g.connections id { c with sock := { c.sock with ended := true } } },
         [{ event := "tcp.socket.timeout", payload := [("id", .str id)] }])
  | none =>
    .error { message := "connection not found: " ++ id, code := 404,
             type := "CONNECTION_NOT_FOUND", cls := "MoleculerClientError" }

/-- The private `onServerConnection` action handler from src/index.js,
with the uuid() draw passed in explicitly: inserts a record whose metadata
is pre-populated with `type` and `remoteAddress`, and emits the
connection event. -/
def onServerConnection (g : Gateway) (id : String) (s : Sock) :
    Gateway × List Emit :=
  ({ connections :=
       alSet g.connections id
         { id := id, sock := s,
           metadata := [("type", .str "tcp"),
                        ("remoteAddress", .str s.remoteAddress)] } },
   [{ event := "tcp.connection", payload := [("id", .str id)] }])

/-- The `onServerDrop` action handler from src/index.js: emits the drop
event with the three fields the handler receives. -/
def onServerDrop (remoteAddress localAddress : String) (localPort : Int) :
    List Emit :=
  [{ event := "tcp.drop",
     payload := [("remoteAddress", .str remoteAddress),
                 ("localAddress", .str localAddress),
                 ("localPort", .num localPort)] }]

/-- The endpoint data net.Server hands to the drop listener registered in
`startServer`; the listener forwards only remoteAddress, localAddress and
localPort to `onServerDrop`. -/
structure DropInfo where
  localAddress : String
  localPort : Int
  remoteAddress : String
  remotePort : Int
  deriving Repr, DecidableEq

/-- The drop wiring installed by `startServer` in src/index.js: the rejected
transport never touches the connections table, and `onServerDrop` is invoked
with the three forwarded fields. -/
def handleServerDrop (g : Gateway) (s : DropInfo) : Gateway × List Emit :=
  (g, onServerDrop s.remoteAddress s.localAddress s.localPort)

/-- The `onServerClose` action handler from src/index.js: emits the server
close event with no payload. -/
def onServerClose : List Emit :=
  [{ event := "tcp.close", payload := [] }]

/-- Modelled from the spec: the `mergeMetadata` command is referenced only by
its tests and type declarations in the sources; per the spec it resolves the
id, fails with ConnectionNotFound if absent, otherwise writes every entry of
the partial map (overwriting overlapping keys) and emits one metadata-set
notification per key written. -/
def mergeMetadata (g : Gateway) (id : String) (data : List (String × JVal)) :
    Except Err (Gateway × List Emit) :=
  match alGet g.connections id with
  | some c =>
    .ok ({ connections :=
             alSet g.connections id
               { c with metadata := data.foldl (fun m p => alSet m p.1 p.2) c.metadata } },
         data.map (fun p =>
           { event := "tcp.socket.metadata.set",
             payload := [("id", .str id), ("key", .str p.1)] }))
  | none =>
    .error { message := "connection not found", code := 404,
             type := "CONNECTION_NOT_FOUND", cls := "MoleculerError" }

/-- A raw transport-level occurrence on one socket, as delivered by the
net.Socket emitter: the listeners registered in onServerConnection forward
each to the matching private action. -/
inductive SockEv where
  | close
  | error (msg : String)
  | timeout
  deriving Repr, DecidableEq

/-- Dispatch of one raw socket event through the listeners installed by
onServerConnection; a handler that throws (connection not found) produces an
unhandled rejection, so no event reaches the broker and the state stays. -/
def dispatchSockEv (g : Gateway) (id : String) : SockEv → Gateway × List Emit
  | .close =>
    match onSocketClose g id with
    | .ok r => r
    | .error _ => (g, [])
  | .error msg =>
    match onSocketError g id msg with
    | .ok r => r
    | .error _ => (g, [])
  | .timeout =>
    match onSocketTimeout g id with
    | .ok r => r
    | .error _ => (g, [])

/-- Run a sequence of raw socket events for one connection, collecting every
event emitted on the broker in order. -/
def runSockEvs (g : Gateway) (id : String) : List SockEv → Gateway × List Emit
  | [] => (g, [])
  | ev :: rest =>
    let r := dispatchSockEv g id ev
    let r' := runSockEvs r.1 id rest
    (r'.1, r.2 ++ r'.2)

/-- Whether a broker event is a terminal notification for a connection:
socket close, socket error, or socket timeout. -/
def isTerminal (e : Emit) : Bool :=
  e.event = "tcp.socket.close" || e.event = "tcp.socket.error" ||
    e.event = "tcp.socket.timeout"

/-- One drained connection during shutdown: the ended socket reports its
close event, which the wiring of onServerConnection routes to the
onSocketClose handler; a throwing handler leaves state and trace alone. -/
def stopStep (st : Gateway × List Emit) (id : String) : Gateway × List Emit :=
  match onSocketClose st.1 id with
  | .ok r => (r.1, st.2 ++ r.2)
  | .error _ => st

/-- A record whose socket has been ended by socket.end(). -/
def endify (c : Conn) : Conn :=
  { c with sock := { c.sock with ended := true } }

/-- Whether a record's socket is still open: neither ended nor destroyed, so
its one close event is still outstanding. -/
def sockOpen (c : Conn) : Bool :=
  !c.sock.ended && !c.sock.destroyed

/-- The `stopServer` method from src/index.js together with the net contract
at the transport boundary: the method calls socket.end() on every record of
the table; a net socket emits its close event exactly once in its lifetime,
so exactly the sockets that were still open at entry now report close
(handled by onSocketClose), while records whose socket had already been
ended or destroyed report nothing further; the server close event fires only
after every connection has gone and is handled by onServerClose. -/
def stopServer (g : Gateway) : Gateway × List Emit :=
  let openIds := alKeys (g.connections.filter (fun p => sockOpen p.2))
  let g1 : Gateway := { connections := g.connections.map (fun p => (p.1, endify p.2)) }
  let r := openIds.foldl stopStep (g1, [])
  (r.1, r.2 ++ onServerClose)

/-- The broker event emitted by onSocketClose for one id. -/
def closeEmit (id : String) : Emit :=
  { event := TCP_SOCKET_CLOSE_EVENT, payload := [("id", .str id)] }

/-- The list of naturals i, i+1, ..., i+n-1 indexing successive uuid draws. -/
def natsFrom : Nat → Nat → List Nat
  | _, 0 => []
  | i, n + 1 => i :: natsFrom (i + 1) n

/-- Accept a list of incoming sockets in order, the j-th accepted socket
receiving the j-th draw of the uuid supply, exactly as the connection
listener invokes onServerConnection once per accepted transport. -/
def acceptFrom (supply : Nat → String) : Nat → List Sock → Gateway → Gateway
  | _, [], g => g
  | i, s :: rest, g => acceptFrom supply (i + 1) rest (onServerConnection g (supply i) s).1

/-- The identities issued by the first n draws of the uuid supply. -/
def idsIssued (supply : Nat → String) (n : Nat) : List String :=
  (natsFrom 0 n).map supply

/-- The broker events of a handler result; a thrown handler emits nothing. -/
def emitsOf : Except Err (Gateway × List Emit) → List Emit
  | .ok r => r.2
  | .error _ => []

/-- The gateway state after a handler result; a thrown handler leaves the
caller's state untouched. -/
def resultState (g : Gateway) : Except Err (Gateway × List Emit) → Gateway
  | .ok r => r.1
  | .error _ => g

/-- A freshly accepted socket used in the concrete scenarios. -/
def sock1 : Sock :=
  { remoteAddress := "198.51.100.7", ended := false, destroyed := false, written := [] }

/-- A second accepted socket used in the concrete scenarios. -/
def sock2 : Sock :=
  { remoteAddress := "198.51.100.8", ended := false, destroyed := false, written := [] }

/-- The gateway after accepting one transport under identity c1. -/
def gOne : Gateway := (onServerConnection { connections := [] } "c1" sock1).1

/-- The record the gateway holds for c1 right after acceptance. -/
def connOne : Conn :=
  { id := "c1", sock := sock1,
    metadata := [("type", .str "tcp"), ("remoteAddress", .str sock1.remoteAddress)] }

/-- The endpoints of a transport rejected by the admission policy in the
concrete drop scenario. -/
def droppedAttempt : DropInfo :=
  { localAddress := "127.0.0.1", localPort := 8181,
    remoteAddress := "203.0.113.5", remotePort := 51515 }

theorem alGet_alSet {α : Type} (m : List (String × α)) (k k' : String) (v : α) :
    alGet (alSet m k v) k' = if k' = k then some v else alGet m k' := by
  induction m with
  | nil =>
    by_cases h : k' = k
    · subst h; simp [alSet, alGet]
    · simp [alSet, alGet, h, Ne.symm h]
  | cons p rest ih =>
    obtain ⟨k0, v0⟩ := p
    by_cases h0 : k0 = k
    · subst h0
      by_cases h : k' = k0
      · subst h; simp [alSet, alGet]
      · simp [alSet, alGet, h, Ne.symm h]
    · by_cases h1 : k0 = k'
      · subst h1
        simp [alSet, alGet, h0, Ne.symm h0]
      · simp [alSet, alGet, h0, h1, ih]

theorem alGet_alSet_self {α : Type} (m : List (String × α)) (k : String) (v : α) :
    alGet (alSet m k v) k = some v := by
  simp [alGet_alSet]

theorem alGet_alSet_ne {α : Type} (m : List (String × α)) (k k' : String) (v : α)
    (h : k' ≠ k) : alGet (alSet m k v) k' = alGet m k' := by
  simp [alGet_alSet, h]

theorem alGet_alDel_self {α : Type} (m : List (String × α)) (k : String) :
    alGet (alDel m k) k = none := by
  induction m with
  | nil => simp [alDel, alGet]
  | cons p rest ih =>
    obtain ⟨k0, v0⟩ := p
    by_cases h0 : k0 = k
    · simp [alDel, h0, ih]
    · simp [alDel, alGet, h0, ih]

theorem alSet_fresh {α : Type} (m : List (String × α)) (k : String) (v : α)
    (h : alGet m k = none) : alSet m k v = m ++ [(k, v)] := by
  induction m with
  | nil => simp [alSet]
  | cons p rest ih =>
    obtain ⟨k0, v0⟩ := p
    by_cases h0 : k0 = k
    · simp [alGet, h0] at h
    · simp [alGet, h0] at h
      simp [alSet, h0, ih h]

theorem alGet_isSome_of_mem_keys {α : Type} (m : List (String × α)) (k : String)
    (h : k ∈ alKeys m) : (alGet m k).isSome := by
  induction m with
  | nil => simp [alKeys] at h
  | cons p rest ih =>
    obtain ⟨k0, v0⟩ := p
    have hkeys : alKeys ((k0, v0) :: rest) = k0 :: alKeys rest := rfl
    rw [hkeys] at h
    by_cases h0 : k0 = k
    · simp [alGet, h0]
    · have h' : k ∈ alKeys rest := by
        rcases List.mem_cons.mp h with h1 | h1
        · exact absurd h1.symm h0
        · exact h1
      simp [alGet, h0, ih h']

theorem alGet_map_value {α β : Type} (f : α → β) (m : List (String × α)) (k : String) :
    alGet (m.map (fun p => (p.1, f p.2))) k = (alGet m k).map f := by
  induction m with
  | nil => simp [alGet]
  | cons p rest ih =>
    obtain ⟨k0, v0⟩ := p
    by_cases h0 : k0 = k
    · simp [alGet, h0]
    · simp [alGet, h0, ih]

theorem mem_alSet {α : Type} (m : List (String × α)) (k : String) (v : α)
    (p : String × α) (h : p ∈ alSet m k v) : p ∈ m ∨ p = (k, v) := by
  induction m with
  | nil => simp [alSet] at h; simp [h]
  | cons q rest ih =>
    obtain ⟨k0, v0⟩ := q
    by_cases h0 : k0 = k
    · simp [alSet, h0] at h
      rcases h with h | h
      · right; simp [h]
      · left; simp [h]
    · simp [alSet, h0] at h
      rcases h with h | h
      · left; simp [h]
      · rcases ih h with h' | h'
        · left; simp [h']
        · right; exact h'

theorem alGet_foldl_alSet_not_mem (data : List (String × JVal))
    (m : List (String × JVal)) (k : String) (hk : k ∉ alKeys data) :
    alGet (data.foldl (fun m p => alSet m p.1 p.2) m) k = alGet m k := by
  induction data generalizing m with
  | nil => rfl
  | cons p rest ih =>
    obtain ⟨k0, v0⟩ := p
    have hkeys : alKeys ((k0, v0) :: rest) = k0 :: alKeys rest := rfl
    rw [hkeys] at hk
    have h1 : k ≠ k0 := fun h => hk (h ▸ List.mem_cons_self _ _)
    have h2 : k ∉ alKeys rest := fun h => hk (List.mem_cons_of_mem _ h)
    rw [List.foldl_cons, ih _ h2]
    exact alGet_alSet_ne m k0 k v0 h1

theorem alGet_foldl_alSet_mem (data : List (String × JVal))
    (m : List (String × JVal)) (k : String) (v : JVal)
    (hmem : (k, v) ∈ data) (hnd : (alKeys data).Nodup) :
    alGet (data.foldl (fun m p => alSet m p.1 p.2) m) k = some v := by
  induction data generalizing m with
  | nil => simp at hmem
  | cons p rest ih =>
    obtain ⟨k0, v0⟩ := p
    have hkeys : alKeys ((k0, v0) :: rest) = k0 :: alKeys rest := rfl
    rw [hkeys] at hnd
    rw [List.foldl_cons]
    rcases List.mem_cons.mp hmem with h | h
    · have hk : k = k0 := congrArg Prod.fst h
      have hv : v = v0 := congrArg Prod.snd h
      subst hk; subst hv
      rw [alGet_foldl_alSet_not_mem _ _ _ (List.nodup_cons.mp hnd).1]
      exact alGet_alSet_self m k v
    · exact ih _ h (List.nodup_cons.mp hnd).2

theorem foldl_stopStep_emits (ids : List String) (g : Gateway) (acc : List Emit)
    (h : ∀ id ∈ ids, (alGet g.connections id).isSome) :
    (ids.foldl stopStep (g, acc)).2 = acc ++ ids.map closeEmit := by
  induction ids generalizing g acc with
  | nil => simp
  | cons id rest ih =>
    have hid := h id (List.mem_cons_self _ _)
    obtain ⟨c, hc⟩ := Option.isSome_iff_exists.mp hid
    have hstep : stopStep (g, acc) id =
        ({ connections :=
             alSet g.connections id { c with sock := { c.sock with ended := true } } },
         acc ++ [closeEmit id]) := by
      simp [stopStep, onSocketClose, hc, closeEmit]
    rw [List.foldl_cons, hstep, ih]
    · simp
    · intro id' hid'
      simp only [alGet_alSet]
      by_cases he : id' = id
      · simp [he]
      · simp only [if_neg he]
        exact h id' (List.mem_cons_of_mem _ hid')

theorem acceptFrom_keys (supply : Nat → String) (socks : List Sock) :
    ∀ (i : Nat) (g : Gateway),
      (∀ j ∈ natsFrom i socks.length, alGet g.connections (supply j) = none) →
      ((natsFrom i socks.length).map supply).Nodup →
      alKeys (acceptFrom supply i socks g).connections
        = alKeys g.connections ++ (natsFrom i socks.length).map supply := by
  induction socks with
  | nil => intro i g _ _; simp [acceptFrom, natsFrom]
  | cons s rest ih =>
    intro i g hfresh hnd
    have hnats : natsFrom i (s :: rest).length = i :: natsFrom (i + 1) rest.length := rfl
    rw [hnats] at hfresh hnd ⊢
    have hfresh0 : alGet g.connections (supply i) = none :=
      hfresh i (List.mem_cons_self _ _)
    have hmapcons :
        (i :: natsFrom (i + 1) rest.length).map supply
          = supply i :: (natsFrom (i + 1) rest.length).map supply := rfl
    rw [hmapcons] at hnd ⊢
    have hhead : supply i ∉ (natsFrom (i + 1) rest.length).map supply :=
      (List.nodup_cons.mp hnd).1
    have hstep :
        acceptFrom supply i (s :: rest) g
          = acceptFrom supply (i + 1) rest (onServerConnection g (supply i) s).1 := rfl
    rw [hstep, ih (i + 1) _ ?_ (List.nodup_cons.mp hnd).2]
    · have hset :
          (onServerConnection g (supply i) s).1.connections
            = g.connections
                ++ [(supply i,
                     { id := supply i, sock := s,
                       metadata := [("type", .str "tcp"),
                                    ("remoteAddress", .str s.remoteAddress)] })] := by
        simp only [onServerConnection]
        exact alSet_fresh _ _ _ hfresh0
      rw [hset]
      simp [alKeys]
    · intro j hj
      simp only [onServerConnection, alGet_alSet]
      have hne : supply j ≠ supply i := by
        intro he
        exact hhead (he ▸ List.mem_map_of_mem supply hj)
      rw [if_neg hne]
      exact hfresh j (List.mem_cons_of_mem _ hj)

theorem acceptFrom_ids (supply : Nat → String) (socks : List Sock) :
    ∀ (i : Nat) (g : Gateway),
      (∀ p ∈ g.connections, p.2.id = p.1) →
      ∀ p ∈ (acceptFrom supply i socks g).connections, p.2.id = p.1 := by
  induction socks with
  | nil => intro i g h; exact h
  | cons s rest ih =>
    intro i g h
    have hstep :
        acceptFrom supply i (s :: rest) g
          = acceptFrom supply (i + 1) rest (onServerConnection g (supply i) s).1 := rfl
    rw [hstep]
    apply ih
    intro p hp
    rcases mem_alSet _ _ _ _ hp with h' | h'
    · exact h p h'
    · subst h'; rfl

/-- C1: the claim says a Connection Record is present in the registry if and
only if its state is not Closed, its record being removed once its terminal
event has fully propagated. The code violates this: after the transport of
c1 reports close and onSocketClose has finished (socket ended, close event
emitted on the broker), the record is still in the connections table — no
handler in src/index.js ever deletes it, and the TypeScript variant's
cleanup handler is subscribed under the literal object key
TCP_SOCKET_CLOSE_EVENT, which differs from the emitted topic
tcp.socket.close, so it can never fire. -/
theorem record_survives_terminal_close :
    emitsOf (onSocketClose gOne "c1") = [closeEmit "c1"] ∧
    alGet (resultState gOne (onSocketClose gOne "c1")).connections "c1"
      = some { connOne with sock := { sock1 with ended := true } } ∧
    cleanupSubscriptionKey ≠ TCP_SOCKET_CLOSE_EVENT := by
  refine ⟨by decide, by decide, by decide⟩

/-- C2: the claim says at most one terminal notification is ever emitted for
the same termination. The code violates this: when the transport of c1
reports an error, the net contract delivers the error event and then the
close event for that single termination; onSocketError emits
tcp.socket.error and onSocketClose — the record still being present — emits
tcp.socket.close, so the one termination produces two terminal
notifications. -/
theorem two_terminal_notifications_on_error :
    (runSockEvs gOne "c1" [.error "boom", .close]).2
      = [{ event := "tcp.socket.error",
           payload := [("id", .str "c1"), ("error", .str "boom")] },
         { event := "tcp.socket.close", payload := [("id", .str "c1")] }] ∧
    ((runSockEvs gOne "c1" [.error "boom", .close]).2.countP
        (fun e => isTerminal e)) = 2 := by
  refine ⟨by decide, by decide⟩

/-- C7: the claim says the drop notification payload carries the full local
and remote endpoint pair including remotePort. The code violates this: the
drop wiring of startServer forwards only remoteAddress, localAddress and
localPort to onServerDrop, so the emitted payload has no remotePort field —
even though the rejected attempt's remotePort (51515 here) is available on
the socket. No registry entry is created and exactly one notification is
emitted, as the claim also states. -/
theorem drop_payload_lacks_remote_port :
    (handleServerDrop gOne droppedAttempt).1 = gOne ∧
    (handleServerDrop gOne droppedAttempt).2.length = 1 ∧
    (∀ e ∈ (handleServerDrop gOne droppedAttempt).2,
      e.event = "tcp.drop" ∧
      alGet e.payload "remotePort" = none ∧
      alGet e.payload "remoteAddress" = some (.str "203.0.113.5") ∧
      alGet e.payload "localAddress" = some (.str "127.0.0.1") ∧
      alGet e.payload "localPort" = some (.num 8181)) ∧
    droppedAttempt.remotePort = 51515 := by
  refine ⟨by decide, by decide, by decide, by decide⟩

/-- C5: every command invoked with an id absent from the registry fails with
the CONNECTION_NOT_FOUND error (code 404) and leaves the gateway state —
the registry and every record's metadata — unchanged. -/
theorem unknown_id_commands_fail_unchanged (g : Gateway) (id key data : String)
    (v : JVal) (m : List (String × JVal))
    (h : alGet g.connections id = none) :
    (∃ e, socketWrite g id data = .error e
        ∧ e.code = 404 ∧ e.type = "CONNECTION_NOT_FOUND") ∧
    (∃ e, socketClose g id = .error e
        ∧ e.code = 404 ∧ e.type = "CONNECTION_NOT_FOUND") ∧
    (∃ e, getMetadata g id key = .error e
        ∧ e.code = 404 ∧ e.type = "CONNECTION_NOT_FOUND") ∧
    (∃ e, setMetadata g id key v = .error e
        ∧ e.code = 404 ∧ e.type = "CONNECTION_NOT_FOUND") ∧
    (∃ e, deleteMetadata g id key = .error e
        ∧ e.code = 404 ∧ e.type = "CONNECTION_NOT_FOUND") ∧
    (∃ e, mergeMetadata g id m = .error e
        ∧ e.code = 404 ∧ e.type = "CONNECTION_NOT_FOUND") ∧
    resultState g (socketWrite g id data) = g ∧
    resultState g (socketClose g id) = g ∧
    resultState g (setMetadata g id key v) = g ∧
    resultState g (deleteMetadata g id key) = g ∧
    resultState g (mergeMetadata g id m) = g := by
  refine ⟨?_, ?_, ?_, ?_, ?_, ?_, ?_, ?_, ?_, ?_, ?_⟩ <;>
    simp [socketWrite, socketClose, getMetadata, setMetadata, deleteMetadata,
      mergeMetadata, resultState, h]

/-- Witness for C5 at a concrete absent id on the one-connection gateway. -/
theorem unknown_id_commands_fail_unchanged_witness :
    ∃ e, socketWrite gOne "zz" "d" = .error e
        ∧ e.code = 404 ∧ e.type = "CONNECTION_NOT_FOUND" :=
  (unknown_id_commands_fail_unchanged gOne "zz" "k" "d" (.str "v") []
    (by decide)).1

/-- C3: every identity ever issued by connection creation is unique: the
connection listener draws one fresh identifier per accepted transport and
stores it verbatim as both the registry key and the record's id field, so as
long as the draws of the 128-bit random generator are pairwise distinct —
which is the generator's contract — the registry holds every identity ever
issued as a distinct key, none colliding with a previously issued one. -/
theorem connection_ids_unique (supply : Nat → String) (socks : List Sock)
    (h : (idsIssued supply socks.length).Nodup) :
    alKeys (acceptFrom supply 0 socks { connections := [] }).connections
        = idsIssued supply socks.length ∧
    (alKeys (acceptFrom supply 0 socks { connections := [] }).connections).Nodup ∧
    ∀ p ∈ (acceptFrom supply 0 socks { connections := [] }).connections,
      p.2.id = p.1 := by
  have hk := acceptFrom_keys supply socks 0 { connections := [] }
    (fun j _ => rfl) h
  refine ⟨?_, ?_, ?_⟩
  · simpa [alKeys, idsIssued] using hk
  · have : alKeys (acceptFrom supply 0 socks { connections := [] }).connections
        = idsIssued supply socks.length := by simpa [alKeys, idsIssued] using hk
    rw [this]; exact h
  · exact acceptFrom_ids supply socks 0 { connections := [] }
      (fun p hp => absurd hp (List.not_mem_nil p))

/-- Witness for C3 with two accepted sockets and a concrete distinct
supply of identifiers. -/
theorem connection_ids_unique_witness :
    alKeys (acceptFrom (fun n => toString n) 0 [sock1, sock2]
        { connections := [] }).connections
      = idsIssued (fun n => toString n) 2 :=
  (connection_ids_unique (fun n => toString n) [sock1, sock2] (by decide)).1

/-- C4: stopping the gateway while M connections are open — every registry
record's socket still open, the claim's scenario — yields exactly M terminal
notifications, one socket close per open connection carrying that
connection's identity, followed by exactly one listener close notification
strictly after all of them: the shutdown trace decomposes as the M
per-connection terminal events and then the single tcp.close, and no element
of the prefix is a listener close. -/
theorem stop_emits_m_terminals_then_server_close (g : Gateway)
    (h : ∀ p ∈ g.connections, sockOpen p.2 = true) :
    (stopServer g).2 = (alKeys g.connections).map closeEmit
        ++ [{ event := "tcp.close", payload := [] }] ∧
    ((alKeys g.connections).map closeEmit).length = g.connections.length ∧
    ∀ e ∈ (alKeys g.connections).map closeEmit,
      isTerminal e = true ∧ e.event ≠ "tcp.close" := by
  have hpre : ∀ id ∈ alKeys g.connections,
      (alGet (({ connections := g.connections.map (fun p => (p.1, endify p.2)) } :
        Gateway).connections) id).isSome := by
    intro id hid
    have h0 := alGet_isSome_of_mem_keys g.connections id hid
    obtain ⟨c, hc⟩ := Option.isSome_iff_exists.mp h0
    simp only [alGet_map_value endify g.connections id, hc, Option.map_some]
    rfl
  have hfilter : g.connections.filter (fun p => sockOpen p.2) = g.connections :=
    List.filter_eq_self.mpr h
  refine ⟨?_, by simp [alKeys], ?_⟩
  · have hunfold : (stopServer g).2
        = ((alKeys (g.connections.filter (fun p => sockOpen p.2))).foldl stopStep
            ({ connections := g.connections.map (fun p => (p.1, endify p.2)) }, [])).2
          ++ onServerClose := rfl
    rw [hunfold, hfilter, foldl_stopStep_emits _ _ _ hpre]
    simp [onServerClose]
  · intro e he
    obtain ⟨id, -, rfl⟩ := List.mem_map.mp he
    refine ⟨rfl, fun hcontra => ?_⟩
    have heq : TCP_SOCKET_CLOSE_EVENT = "tcp.close" := hcontra
    exact absurd heq (by decide)

/-- Witness for C4 on the one-open-connection gateway: its shutdown trace is
the single terminal notification for c1 followed by the listener close. -/
theorem stop_emits_m_terminals_then_server_close_witness :
    (stopServer gOne).2 = (alKeys gOne.connections).map closeEmit
        ++ [{ event := "tcp.close", payload := [] }] :=
  (stop_emits_m_terminals_then_server_close gOne (by decide)).1

/-- C6: for a live connection id, mergeMetadata succeeds, writes every entry
of the map (overwriting overlapping keys, later duplicates winning as with
individual assignments), makes every written value retrievable through
getMetadata, and emits exactly one metadata-set notification per key of the
map; for an absent id it fails with CONNECTION_NOT_FOUND. -/
theorem merge_metadata_behavior (g : Gateway) (id : String)
    (data : List (String × JVal)) :
    (∀ c, alGet g.connections id = some c → (alKeys data).Nodup →
      ∃ g1, mergeMetadata g id data
          = .ok (g1, data.map (fun p =>
              { event := "tcp.socket.metadata.set",
                payload := [("id", JVal.str id), ("key", JVal.str p.1)] })) ∧
        ∀ kv ∈ data, getMetadata g1 id kv.1 = .ok (some kv.2)) ∧
    (alGet g.connections id = none →
      ∃ e, mergeMetadata g id data = .error e
          ∧ e.code = 404 ∧ e.type = "CONNECTION_NOT_FOUND") := by
  constructor
  · intro c hc hnd
    refine ⟨⟨alSet g.connections id ({ c with metadata := data.foldl (fun m p => alSet m p.1 p.2) c.metadata })⟩, ?_, ?_⟩
    · simp [mergeMetadata, hc]
    · intro kv hkv
      have hg : alGet (alSet g.connections id
          ({ c with metadata := data.foldl (fun m p => alSet m p.1 p.2) c.metadata })) id
          = some ({ c with
              metadata := data.foldl (fun m p => alSet m p.1 p.2) c.metadata }) :=
        alGet_alSet_self _ _ _
      simp only [getMetadata, hg]
      rw [alGet_foldl_alSet_mem data c.metadata kv.1 kv.2 hkv hnd]
  · intro h
    simp [mergeMetadata, h]

/-- Witness for C6 merging two keys into the live connection c1. -/
theorem merge_metadata_behavior_witness :
    ∃ g1, mergeMetadata gOne "c1" [("a", .num 1), ("b", .num 2)]
        = .ok (g1, [{ event := "tcp.socket.metadata.set",
                      payload := [("id", JVal.str "c1"), ("key", JVal.str "a")] },
                    { event := "tcp.socket.metadata.set",
                      payload := [("id", JVal.str "c1"), ("key", JVal.str "b")] }]) ∧
      ∀ kv ∈ [("a", JVal.num 1), ("b", JVal.num 2)],
        getMetadata g1 "c1" kv.1 = .ok (some kv.2) :=
  (merge_metadata_behavior gOne "c1" [("a", .num 1), ("b", .num 2)]).1
    connOne (by decide) (by decide)

/-- C8: for a live connection, setMetadata followed by getMetadata on the
same key returns the written value, deleteMetadata followed by getMetadata
returns undefined, and each mutating call emits its notification exactly
once — the emitted lists are singletons. -/
theorem set_get_delete_roundtrip (g : Gateway) (id key : String) (v : JVal)
    (c : Conn) (hc : alGet g.connections id = some c) :
    ∃ g1, setMetadata g id key v
        = .ok (g1, [{ event := "tcp.socket.metadata.set",
                      payload := [("id", .str id), ("key", .str key)] }]) ∧
      getMetadata g1 id key = .ok (some v) ∧
      ∃ g2, deleteMetadata g1 id key
          = .ok (g2, [{ event := "tcp.socket.metadata.delete",
                        payload := [("id", .str id), ("key", .str key)] }]) ∧
        getMetadata g2 id key = .ok none := by
  refine ⟨⟨alSet g.connections id ({ c with metadata := alSet c.metadata key v })⟩, ?_, ?_, ?_⟩
  · simp [setMetadata, hc]
  · simp [getMetadata, alGet_alSet_self]
  · have hc1 : alGet (alSet g.connections id
        ({ c with metadata := alSet c.metadata key v })) id
        = some ({ c with metadata := alSet c.metadata key v }) :=
      alGet_alSet_self _ _ _
    refine ⟨⟨alSet (alSet g.connections id ({ c with metadata := alSet c.metadata key v })) id ({ c with metadata := alDel (alSet c.metadata key v) key })⟩, ?_, ?_⟩
    · simp [deleteMetadata, hc1]
    · simp [getMetadata, alGet_alSet_self, alGet_alDel_self]

/-- Witness for C8 on the live connection c1 with key foo and value bar. -/
theorem set_get_delete_roundtrip_witness :
    ∃ g1, setMetadata gOne "c1" "foo" (.str "bar")
        = .ok (g1, [{ event := "tcp.socket.metadata.set",
                      payload := [("id", .str "c1"), ("key", .str "foo")] }]) ∧
      getMetadata g1 "c1" "foo" = .ok (some (.str "bar")) ∧
      ∃ g2, deleteMetadata g1 "c1" "foo"
          = .ok (g2, [{ event := "tcp.socket.metadata.delete",
                        payload := [("id", .str "c1"), ("key", .str "foo")] }]) ∧
        getMetadata g2 "c1" "foo" = .ok none :=
  set_get_delete_roundtrip gOne "c1" "foo" (.str "bar") connOne (by decide)

/-- C9: the notification emitted by a successful setMetadata, deleteMetadata
or mergeMetadata call carries exactly the id and the key and never the
value: the payloads are the two-field objects, and two calls differing only
in the value arguments emit identical notifications. -/
theorem metadata_events_never_carry_value (g : Gateway) (id key : String)
    (v1 v2 : JVal) (c : Conn) (hc : alGet g.connections id = some c)
    (d1 d2 : List (String × JVal)) (hkeys : alKeys d1 = alKeys d2) :
    emitsOf (setMetadata g id key v1)
        = [{ event := "tcp.socket.metadata.set",
             payload := [("id", JVal.str id), ("key", JVal.str key)] }] ∧
    emitsOf (setMetadata g id key v1) = emitsOf (setMetadata g id key v2) ∧
    emitsOf (deleteMetadata g id key)
        = [{ event := "tcp.socket.metadata.delete",
             payload := [("id", JVal.str id), ("key", JVal.str key)] }] ∧
    emitsOf (mergeMetadata g id d1)
        = (alKeys d1).map (fun k =>
            { event := "tcp.socket.metadata.set",
              payload := [("id", JVal.str id), ("key", JVal.str k)] }) ∧
    emitsOf (mergeMetadata g id d1) = emitsOf (mergeMetadata g id d2) := by
  have hmm : ∀ d : List (String × JVal),
      emitsOf (mergeMetadata g id d)
        = (alKeys d).map (fun k =>
            { event := "tcp.socket.metadata.set",
              payload := [("id", JVal.str id), ("key", JVal.str k)] }) := by
    intro d
    simp [mergeMetadata, hc, emitsOf, alKeys, List.map_map]
  refine ⟨?_, ?_, ?_, hmm d1, ?_⟩
  · simp [setMetadata, hc, emitsOf]
  · simp [setMetadata, hc, emitsOf]
  · simp [deleteMetadata, hc, emitsOf]
  · rw [hmm d1, hmm d2, hkeys]

/-- Witness for C9: two setMetadata calls on c1 differing only in the value
emit the same notification. -/
theorem metadata_events_never_carry_value_witness :
    emitsOf (setMetadata gOne "c1" "foo" (.str "bar"))
      = emitsOf (setMetadata gOne "c1" "foo" (.num 99)) :=
  (metadata_events_never_carry_value gOne "c1" "foo" (.str "bar") (.num 99)
    connOne (by decide) [("a", .num 1)] [("a", .num 2)] (by decide)).2.1

/-- C10: the pre-populated default metadata entries are not protected: right
after acceptance the record holds type = tcp and the socket's remote
address, and setMetadata overwrites either entry while deleteMetadata
removes it, exactly as the general metadata operations do for any key. -/
theorem default_metadata_not_protected (g : Gateway) (s : Sock) (id : String)
    (v : JVal) :
    getMetadata (onServerConnection g id s).1 id "type"
        = .ok (some (.str "tcp")) ∧
    getMetadata (onServerConnection g id s).1 id "remoteAddress"
        = .ok (some (.str s.remoteAddress)) ∧
    emitsOf (setMetadata (onServerConnection g id s).1 id "type" v)
        = [{ event := "tcp.socket.metadata.set",
             payload := [("id", .str id), ("key", .str "type")] }] ∧
    getMetadata
        (resultState (onServerConnection g id s).1
          (setMetadata (onServerConnection g id s).1 id "type" v)) id "type"
        = .ok (some v) ∧
    emitsOf (deleteMetadata (onServerConnection g id s).1 id "type")
        = [{ event := "tcp.socket.metadata.delete",
             payload := [("id", .str id), ("key", .str "type")] }] ∧
    getMetadata
        (resultState (onServerConnection g id s).1
          (deleteMetadata (onServerConnection g id s).1 id "type")) id "type"
        = .ok none ∧
    getMetadata
        (resultState (onServerConnection g id s).1
          (setMetadata (onServerConnection g id s).1 id "remoteAddress" v))
        id "remoteAddress"
        = .ok (some v) ∧
    getMetadata
        (resultState (onServerConnection g id s).1
          (deleteMetadata (onServerConnection g id s).1 id "remoteAddress"))
        id "remoteAddress"
        = .ok none := by
  have hrec : alGet (onServerConnection g id s).1.connections id
      = some { id := id, sock := s,
               metadata := [("type", JVal.str "tcp"),
                            ("remoteAddress", JVal.str s.remoteAddress)] } :=
    alGet_alSet_self _ _ _
  refine ⟨?_, ?_, ?_, ?_, ?_, ?_, ?_, ?_⟩
  · simp only [getMetadata, hrec]
    rfl
  · simp only [getMetadata, hrec]
    rfl
  · simp [setMetadata, hrec, emitsOf]
  · simp [setMetadata, hrec, emitsOf, resultState, getMetadata, alGet_alSet_self]
  · simp [deleteMetadata, hrec, emitsOf]
  · simp [deleteMetadata, hrec, emitsOf, resultState, getMetadata,
      alGet_alSet_self, alGet_alDel_self]
  · simp [setMetadata, hrec, emitsOf, resultState, getMetadata, alGet_alSet_self]
  · simp [deleteMetadata, hrec, emitsOf, resultState, getMetadata,
      alGet_alSet_self, alGet_alDel_self]

end MoleculerTcp
